import Mathlib

/-!
Verification of the PennyLane differentiable batch-execution interface
(src/pennylane/interfaces/batch/autograd.py), the kernel cost functions
(src/pennylane/kernels/cost_functions.py) and the basis-set loader
(src/qchem/pennylane_qchem/hf/basis_set.py), as a shallow embedding.

Numeric values that may carry autograd graph-tracking wrappers (ArrayBox)
are modelled by the inductive type Val: a plain rational, or a boxed value
(one level of graph-tracking wrapping). Device and classical collaborators
that the interface consumes as injected callables are abstract function
parameters gathered in a context structure. Observable effects (number of
device-function invocations, the nesting levels at which execute is
re-entered, and the final state of the caller-owned tapes) are returned
explicitly alongside the result.
-/

namespace Pennylane

/-- A host-framework numeric value: a plain number, or an autograd
ArrayBox graph-tracking wrapper around another value. -/
inductive Val where
  | num : ℚ → Val
  | box : Val → Val
deriving DecidableEq

/-- Number of graph-tracking wrapper levels around a value. -/
def boxDepth : Val → ℕ
  | .num _ => 0
  | .box v => boxDepth v + 1

/-- The underlying plain numeric value, all wrapper levels removed. -/
def unwrapVal : Val → ℚ
  | .num q => q
  | .box v => unwrapVal v

/-- isinstance(v, ArrayBox): whether the value is still graph-tracked. -/
def Val.isBox : Val → Bool
  | .box _ => true
  | .num _ => false

/-- Modelled from the spec: qml.math.to_numpy with a max_depth argument is
part of pennylane.math, which is not under src/. The spec (4.3 output
normalization) states it converts a graph-tracking wrapper value to a plain
numeric value, but only down to the given number of wrapping levels, so
wrapping needed for higher derivative orders is preserved. -/
def to_numpy : Val → ℕ → Val
  | v, 0 => v
  | .box v, n + 1 => to_numpy v n
  | .num q, _ + 1 => .num q

/-- A quantum tape as consumed by the interface: opaque structural content
(operations and measurements, abstracted as a tag) plus the flat ordered
parameter list exposed through get_parameters / set_parameters. -/
structure QuantumTape where
  ops : ℕ
  params : List Val
deriving DecidableEq

/-- Tape.get_parameters: the flat ordered parameter list. -/
def QuantumTape.get_parameters (t : QuantumTape) : List Val := t.params

/-- Tape.set_parameters: non-destructive parameter substitution (same
structure, new values). -/
def QuantumTape.set_parameters (t : QuantumTape) (ps : List Val) : QuantumTape :=
  { t with params := ps }

/-- Modelled from the spec: the substitution step of qml.tape.Unwrap (the
Unwrap context manager lives outside src/). The spec (4.2) says it
temporarily substitutes each tape's symbolic / graph-tracking parameters
with plain numeric values for the duration of the device call. -/
def unwrapTape (t : QuantumTape) : QuantumTape :=
  { t with params := t.params.map (fun v => Val.num (unwrapVal v)) }

/-- Substring containment on character lists, for the Python test
"pennylane.gradients" in module_name. -/
def listContainsSub (needle : List Char) : List Char → Bool
  | [] => needle.isEmpty
  | c :: rest => List.isPrefixOf needle (c :: rest) || listContainsSub needle rest

/-- Python substring membership: needle in hay. -/
def strContains (hay needle : String) : Bool :=
  listContainsSub needle.data hay.data

/-- Errors that can propagate out of the interface. -/
inductive Err where
  | unknownGradientFn : Err
  | deviceFailure : ℕ → Err
  | gradientTransformForwardMode : Err
deriving DecidableEq

/-- The gradient function as the interface can observe it at runtime:
the __name__ of inspect.getmodule(gradient_fn), whether it is a bound
method and the identity of the object it is bound to, and the callable
itself (tapes to per-tape Jacobian values, possibly raising). -/
structure GradientFn where
  module : String
  isBoundMethod : Bool
  boundTo : ℕ
  run : List QuantumTape → Except Err (List Val)

/-- The source's check for a differentiable gradient transform:
"pennylane.gradients" in inspect.getmodule(gradient_fn).__name__
(autograd.py line 138). -/
def isGradientTransform (g : GradientFn) : Bool :=
  strContains g.module "pennylane.gradients"

/-- The injected collaborators: execute_fn (tapes to (results, jacobians),
possibly raising a device failure), the classical VJP computation
qml.gradients._vector_jacobian_products, and qml.gradients.batch_vjp
(tapes and upstream gradient to gradient tapes plus a post-processing
function). The latter two are classical post-processing outside src/ and
are kept abstract. -/
structure Ctx where
  execute_fn : List QuantumTape → Except Err (List Val × List Val)
  vector_jacobian_products : List Val → List Val → List Val
  batch_vjp : List QuantumTape → List Val → GradientFn →
      List QuantumTape × (List Val → List Val)

/-- Observable outcome of a call: the result or propagated error, the final
state of the caller-owned tapes, how many device-side callables
(execute_fn or a device-bound gradient method) were invoked, and the list
of nesting levels at which execute was entered. -/
structure Out (α : Type) where
  res : Except Err α
  tapesAfter : List QuantumTape
  devCalls : ℕ
  entered : List ℕ

/-- np.tensor conversion of a single result: a container-type change with
no numeric effect in this model. -/
def npTensor (r : Val) : Val := r

/-- The autograd primitive _execute (autograd.py lines 62-89): inside the
Unwrap scope (save the parameters, substitute plain numeric values) it
invokes execute_fn on the tapes and converts the results with np.tensor;
the scope restores the saved parameters on every exit path, normal or
exceptional. -/
def _execute (ctx : Ctx) (tapes : List QuantumTape) : Out (List Val × List Val) :=
  let saved := tapes.map QuantumTape.get_parameters
  let unwrapped := tapes.map unwrapTape
  let restored := (unwrapped.zip saved).map (fun p => QuantumTape.set_parameters p.1 p.2)
  match ctx.execute_fn unwrapped with
  | .error e => ⟨.error e, restored, 1, []⟩
  | .ok rj => ⟨.ok (rj.1.map npTensor, rj.2), restored, 1, []⟩

/-- The public entry point execute (autograd.py lines 27-59): extracts the
parameters, calls the primitive _execute and returns component [0] of its
output. The nesting-level argument _n defaults to 1 in the source, so the
outermost call runs at level 1; each entry into execute is recorded. -/
def execute (ctx : Ctx) (device : ℕ) (tapes : List QuantumTape)
    (gradient_fn : GradientFn) (_n : ℕ) : Out (List Val) :=
  let o := _execute ctx tapes
  ⟨o.res.map Prod.fst, o.tapesAfter, o.devCalls, _n :: o.entered⟩

/-- The output normalization of autograd.py line 165: every VJP component
that is still an ArrayBox is converted by to_numpy with max_depth equal to
the current nesting level; other components are returned unchanged. -/
def normalizeVjps (n : ℕ) (vjps : List Val) : List Val :=
  vjps.map (fun v => if v.isBox then to_numpy v n else v)

/-- The backward rule grad_fn (the closure built by vjp, autograd.py lines
118-165). ans is the stored forward output (results, Jacobian set); dy is
the upstream gradient for that pair, of which component dy[0] is used.
Decision procedure, in source order:
1. if the stored Jacobian set is non-empty, compute the VJPs classically;
2. else if gradient_fn lives in the pennylane.gradients module, build
   gradient tapes with batch_vjp and recursively call execute on them at
   nesting level _n + 1, post-processing the recursive results;
3. else if gradient_fn is a method bound to this device, call it on the
   unwrapped tapes inside an Unwrap scope and compute the VJPs classically;
4. else raise ValueError "Unknown gradient function!!!".
The normalization of line 165 is applied to every successfully computed
VJP list. -/
def grad_fn (ctx : Ctx) (device : ℕ) (tapes : List QuantumTape)
    (gradient_fn : GradientFn) (_n : ℕ) (ans : List Val × List Val)
    (dy : List Val × List Val) : Out (List Val) :=
  let d := dy.1
  let jacs := ans.2
  if jacs ≠ [] then
    ⟨.ok (normalizeVjps _n (ctx.vector_jacobian_products d jacs)), tapes, 0, []⟩
  else if isGradientTransform gradient_fn then
    let vt := ctx.batch_vjp tapes d gradient_fn
    let o := execute ctx device vt.1 gradient_fn (_n + 1)
    match o.res with
    | .error e => ⟨.error e, tapes, o.devCalls, o.entered⟩
    | .ok rs => ⟨.ok (normalizeVjps _n (vt.2 rs)), tapes, o.devCalls, o.entered⟩
  else if gradient_fn.isBoundMethod && gradient_fn.boundTo == device then
    let saved := tapes.map QuantumTape.get_parameters
    let unwrapped := tapes.map unwrapTape
    let restored := (unwrapped.zip saved).map (fun p => QuantumTape.set_parameters p.1 p.2)
    match gradient_fn.run unwrapped with
    | .error e => ⟨.error e, restored, 1, []⟩
    | .ok jacs2 => ⟨.ok (normalizeVjps _n (ctx.vector_jacobian_products d jacs2)), restored, 1, []⟩
  else
    ⟨.error .unknownGradientFn, tapes, 0, []⟩

/-- The vjp wrapper (autograd.py lines 92-167): given the forward answer
and the original inputs, returns the backward closure grad_fn. -/
def vjp (ctx : Ctx) (device : ℕ) (tapes : List QuantumTape)
    (gradient_fn : GradientFn) (_n : ℕ) (ans : List Val × List Val) :
    (List Val × List Val) → Out (List Val) :=
  fun dy => grad_fn ctx device tapes gradient_fn _n ans dy

/-- Modelled from the spec: the max_diff derivative-order ceiling is handled
by the batch execution dispatcher in pennylane/interfaces/batch/__init__.py,
which is not under src/. Per spec 4.4 and the pinned behavior of
test_max_diff (with max_diff = 1 the first derivative is still the correct
gradient and only the Hessian is zero), when the nesting level the
recursive re-entry would use exceeds the ceiling, the gradient rule
resolver still computes the current-order VJP, but non-recursively: the
gradient tapes are built from the unwrapped tapes inside the Unwrap scope
and evaluated by a direct execute_fn call instead of a recursive execute
entry, so the result carries no graph tracking and only derivative orders
strictly beyond the ceiling are zero; all other branches behave as in
grad_fn. -/
def grad_fn_capped (ctx : Ctx) (device : ℕ) (tapes : List QuantumTape)
    (gradient_fn : GradientFn) (max_diff _n : ℕ) (ans : List Val × List Val)
    (dy : List Val × List Val) : Out (List Val) :=
  let d := dy.1
  let jacs := ans.2
  if jacs ≠ [] then
    ⟨.ok (normalizeVjps _n (ctx.vector_jacobian_products d jacs)), tapes, 0, []⟩
  else if isGradientTransform gradient_fn then
    if max_diff < _n + 1 then
      let saved := tapes.map QuantumTape.get_parameters
      let unwrapped := tapes.map unwrapTape
      let restored := (unwrapped.zip saved).map (fun p => QuantumTape.set_parameters p.1 p.2)
      let vt := ctx.batch_vjp unwrapped d gradient_fn
      match ctx.execute_fn vt.1 with
      | .error e => ⟨.error e, restored, 1, []⟩
      | .ok rj => ⟨.ok (normalizeVjps _n (vt.2 rj.1)), restored, 1, []⟩
    else
      let vt := ctx.batch_vjp tapes d gradient_fn
      let o := execute ctx device vt.1 gradient_fn (_n + 1)
      match o.res with
      | .error e => ⟨.error e, tapes, o.devCalls, o.entered⟩
      | .ok rs => ⟨.ok (normalizeVjps _n (vt.2 rs)), tapes, o.devCalls, o.entered⟩
  else if gradient_fn.isBoundMethod && gradient_fn.boundTo == device then
    let saved := tapes.map QuantumTape.get_parameters
    let unwrapped := tapes.map unwrapTape
    let restored := (unwrapped.zip saved).map (fun p => QuantumTape.set_parameters p.1 p.2)
    match gradient_fn.run unwrapped with
    | .error e => ⟨.error e, restored, 1, []⟩
    | .ok jacs2 => ⟨.ok (normalizeVjps _n (ctx.vector_jacobian_products d jacs2)), restored, 1, []⟩
  else
    ⟨.error .unknownGradientFn, tapes, 0, []⟩

/-- The accumulation mode selector of the batch execution dispatcher. -/
inductive Mode where
  | forward : Mode
  | backward : Mode
deriving DecidableEq

/-- Modelled from the spec: the mode validation of the batch execution
dispatcher in pennylane/interfaces/batch/__init__.py, which is not under
src/ (its behavior is pinned by test_incorrect_mode in
src/tests/interfaces/test_batch_torch.py: "Gradient transforms cannot be
used with mode=forward"). Per spec section 6 and 7, a gradient-transform
gradient_fn combined with forward mode fails validation with a descriptive
error before any device call; otherwise dispatch proceeds to execute at
nesting level 1. -/
def batch_dispatch (ctx : Ctx) (device : ℕ) (tapes : List QuantumTape)
    (gradient_fn : GradientFn) (mode : Mode) : Out (List Val) :=
  if mode = Mode.forward ∧ isGradientTransform gradient_fn = true then
    ⟨.error .gradientTransformForwardMode, tapes, 0, []⟩
  else
    execute ctx device tapes gradient_fn 1

/-! ## Kernel cost functions (src/pennylane/kernels/cost_functions.py)

square_kernel_matrix and frobenius_inner_product are imported from
pennylane.kernels.utils / pennylane.utils, which are not under src/; they
are kept as abstract function parameters, since the claim about these
definitions (C9) only relates the two cost functions to each other. -/

/-- polarity (cost_functions.py lines 25-100): builds the square kernel
matrix of the dataset, optionally rescales the class labels by the size of
their class (labels equal to 1 are divided by the count of 1-labels, all
others by the count of the rest), forms the outer product of the rescaled
label vector with itself, and returns the Frobenius inner product of the
two matrices with the given normalize flag. -/
def polarity {α : Type} (square_kernel_matrix : List α → (α → α → ℚ) → Bool → List (List ℚ))
    (frobenius_inner_product : List (List ℚ) → List (List ℚ) → Bool → ℚ)
    (X : List α) (Y : List ℚ) (kernel : α → α → ℚ)
    (assume_normalized_kernel rescale_class_labels normalize : Bool) : ℚ :=
  let K := square_kernel_matrix X kernel assume_normalized_kernel
  let Y2 :=
    if rescale_class_labels then
      let nplus : ℚ := ((Y.filter (fun y => y == 1)).length : ℚ)
      let nminus : ℚ := (Y.length : ℚ) - nplus
      Y.map (fun y => if y == 1 then y / nplus else y / nminus)
    else Y
  let T := Y2.map (fun a => Y2.map (fun b => a * b))
  frobenius_inner_product K T normalize

/-- target_alignment (cost_functions.py lines 103-179): an alias for
polarity with normalize set to True. -/
def target_alignment {α : Type}
    (square_kernel_matrix : List α → (α → α → ℚ) → Bool → List (List ℚ))
    (frobenius_inner_product : List (List ℚ) → List (List ℚ) → Bool → ℚ)
    (X : List α) (Y : List ℚ) (kernel : α → α → ℚ)
    (assume_normalized_kernel rescale_class_labels : Bool) : ℚ :=
  polarity square_kernel_matrix frobenius_inner_product X Y kernel
    assume_normalized_kernel rescale_class_labels true

/-! ## Basis sets (src/qchem/pennylane_qchem/hf/basis_set.py) -/

/-- One atom's entry of a basis-set data table such as basis_data.STO3G
(the data file basis_data.py is not under src/, so the table is an abstract
parameter): the orbital labels and, aligned with them, the exponent and
contraction-coefficient lists. -/
structure AtomBasisData where
  orbitals : List String
  exponents : List (List ℚ)
  coefficients : List (List ℚ)
deriving DecidableEq

/-- One basis-function parameter tuple: angular momentum, exponents,
contraction coefficients. -/
abbrev BasisParams := (ℕ × ℕ × ℕ) × List ℚ × List ℚ

/-- The s angular momentum tuple of atom_basis_data. -/
def sOrb : ℕ × ℕ × ℕ := (0, 0, 0)

/-- The p angular momentum tuples of atom_basis_data, in source order. -/
def pOrbs : List (ℕ × ℕ × ℕ) := [(0, 0, 1), (0, 1, 0), (1, 0, 0)]

/-- One iteration of the loop of atom_basis_data (basis_set.py lines
94-103) at index i with orbital label j: an S orbital contributes one
s-type tuple from exponents[i] and coefficients[i]; an SP orbital
contributes that s-type tuple followed by the three p-type tuples built
from exponents[i] and coefficients[i + 1]; any other label contributes
nothing. Out-of-range indexing fails as in Python. -/
def orbitalParams (basis : AtomBasisData) (i : ℕ) (j : String) :
    Option (List BasisParams) :=
  if j = "S" then do
    let e ← basis.exponents.get? i
    let c ← basis.coefficients.get? i
    some [(sOrb, e, c)]
  else if j = "SP" then do
    let e ← basis.exponents.get? i
    let c ← basis.coefficients.get? i
    let c2 ← basis.coefficients.get? (i + 1)
    some ((sOrb, e, c) :: pOrbs.map (fun l => (l, e, c2)))
  else
    some []

/-- The enumerate loop of atom_basis_data over the orbital labels. -/
def atomOrbLoop (basis : AtomBasisData) : ℕ → List String → Option (List BasisParams)
  | _, [] => some []
  | i, j :: rest => do
    let ps ← orbitalParams basis i j
    let tail ← atomOrbLoop basis (i + 1) rest
    some (ps ++ tail)

/-- atom_basis_data (basis_set.py lines 66-104): looks the basis-set name
up in the table of known basis sets (only "sto-3g" is present), looks the
atom up in that set's data, and accumulates the parameter tuples over the
orbital labels. A missing name or atom fails as a Python KeyError does. -/
def atom_basis_data (STO3G : String → Option AtomBasisData) (name atom : String) :
    Option (List BasisParams) := do
  let basis_sets : String → Option (String → Option AtomBasisData) :=
    fun n => if n = "sto-3g" then some STO3G else none
  let bs ← basis_sets name
  let basis ← bs atom
  atomOrbLoop basis 0 basis.orbitals

/-- The accumulation loop of mol_basis_data over the symbols. -/
def molLoop (STO3G : String → Option AtomBasisData) (name : String) :
    List String → Option (List ℕ × List BasisParams)
  | [] => some ([], [])
  | s :: rest => do
    let basis ← atom_basis_data STO3G name s
    let tail ← molLoop STO3G name rest
    some (basis.length :: tail.1, basis ++ tail.2)

/-- mol_basis_data (basis_set.py lines 107-136): for each atomic symbol in
order, fetches that atom's basis parameters, records their count in
n_basis and appends them to the parameter sequence; returns the pair. -/
def mol_basis_data (STO3G : String → Option AtomBasisData) (name : String)
    (symbols : List String) : Option (List ℕ × List BasisParams) :=
  molLoop STO3G name symbols

/-! ## Concrete instances used to evaluate the model on closed inputs -/

/-- A one-parameter tape as in the RY(a); RX(b); expval(Z) examples. -/
def tapeW : QuantumTape := ⟨0, [Val.num (1 / 10)]⟩

/-- The same tape with its parameter still graph-tracked. -/
def tapeBoxW : QuantumTape := ⟨0, [Val.box (Val.num (1 / 10))]⟩

/-- A concrete collaborator context: the device execution returns one
result and an empty Jacobian set (backward accumulation), the classical
VJP computation passes the Jacobians through, batch_vjp returns the batch
itself with the identity post-processing. -/
def ctxW : Ctx :=
  ⟨fun _ => .ok ([Val.num 1], []), fun _ jacs => jacs, fun tapes _ _ => (tapes, fun rs => rs)⟩

/-- The identity of the concrete device. -/
def deviceW : ℕ := 5

/-- A gradient function that is neither a gradient transform nor a device
method, as in test_unknown_gradient_fn_error (a plain lambda). -/
def gfnUnknown : GradientFn := ⟨"builtins", false, 0, fun _ => .ok []⟩

/-- A gradient transform: its module lives in the pennylane.gradients
namespace. -/
def gfnTransform : GradientFn := ⟨"pennylane.gradients", false, 0, fun _ => .ok []⟩

/-- A device-bound gradient method on deviceW (for example the adjoint
Jacobian method). -/
def gfnDevice : GradientFn := ⟨"pennylane.devices", true, 5, fun _ => .ok [Val.num 2]⟩

/-- A one-orbital hydrogen-like entry of an STO-3G style table, used to
evaluate the basis-set loader on a closed input. -/
def hAtomData : AtomBasisData := ⟨["S"], [[1]], [[2]]⟩

/-- A concrete basis-set data table containing only H. -/
def sto3gW : String → Option AtomBasisData :=
  fun a => if a = "H" then some hAtomData else none

/-! ## Helper lemmas -/

/-- Restoring the saved parameters onto an unwrapped tape gives back the
original tape. -/
theorem set_parameters_unwrapTape (t : QuantumTape) :
    (unwrapTape t).set_parameters t.params = t := by
  cases t
  rfl

/-- The restore step of the Unwrap scope undoes the substitution: writing
each tape's saved parameters back onto its unwrapped version recovers the
original tape list. -/
theorem restore_roundtrip (tapes : List QuantumTape) :
    ((tapes.map unwrapTape).zip (tapes.map QuantumTape.get_parameters)).map
      (fun p => QuantumTape.set_parameters p.1 p.2) = tapes := by
  induction tapes with
  | nil => rfl
  | cons t ts ih =>
      simp only [List.map_cons, List.zip_cons_cons, QuantumTape.get_parameters,
        set_parameters_unwrapTape, ih]

/-- to_numpy removes exactly min(depth, max_depth) wrapper levels: the
remaining depth is the original depth minus max_depth, truncated at 0. -/
theorem boxDepth_to_numpy (n : ℕ) (v : Val) :
    boxDepth (to_numpy v n) = boxDepth v - n := by
  induction n generalizing v with
  | zero => simp [to_numpy]
  | succ k ih =>
      cases v with
      | num q => simp [to_numpy, boxDepth]
      | box w => simp [to_numpy, boxDepth, ih, Nat.succ_sub_succ]

/-- A value wrapped no deeper than max_depth is converted all the way to a
plain numeric value. -/
theorem to_numpy_of_depth_le (n : ℕ) (v : Val) (h : boxDepth v ≤ n) :
    to_numpy v n = Val.num (unwrapVal v) := by
  induction n generalizing v with
  | zero =>
      cases v with
      | num q => rfl
      | box w => simp [boxDepth] at h
  | succ k ih =>
      cases v with
      | num q => rfl
      | box w =>
          simp only [boxDepth, Nat.succ_le_succ_iff] at h
          simp [to_numpy, unwrapVal, ih w h]

/-! ## Claims -/

/-- Claim C2: the parameter substitution performed around the device call is
scoped and exception-safe: after the forward primitive _execute (which runs
execute_fn inside the Unwrap scope) and after the backward rule grad_fn
(whichever branch it takes, including the device-bound gradient path and
including the cases where execute_fn or gradient_fn raises), the
caller-owned tapes hold their original parameters; the error, when there is
one, still propagates in the res field. -/
theorem tape_parameters_restored (ctx : Ctx) (device : ℕ) (tapes : List QuantumTape)
    (gradient_fn : GradientFn) (n : ℕ) (ans dy : List Val × List Val) :
    (_execute ctx tapes).tapesAfter = tapes ∧
    (grad_fn ctx device tapes gradient_fn n ans dy).tapesAfter = tapes := by
  constructor
  · unfold _execute
    dsimp only
    split <;> simp [restore_roundtrip]
  · unfold grad_fn
    dsimp only
    split
    · rfl
    · split
      · split <;> rfl
      · split
        · split <;> simp [restore_roundtrip]
        · rfl

/-- Claim C1: for every backward-pass VJP request, grad_fn decides the
strategy in this fixed order: (1) if the stored Jacobian set is non-empty,
the VJPs are computed classically from it and the upstream gradient, with
no device call and no recursive execute entry; (2) otherwise, if
gradient_fn belongs to the pennylane.gradients namespace, gradient tapes
are built via batch_vjp and execute is recursively entered on them (one
device call, one recursive entry), the post-processing function combining
the results; (3) otherwise, if gradient_fn is a method bound to the same
device instance, it is called on the batch and the VJPs are computed
classically from the returned Jacobians (one device call, no recursion);
(4) otherwise the request fails with the unrecognized-gradient-function
error and no device call, the three supported cases being exhaustive. -/
theorem grad_fn_decision_order (ctx : Ctx) (device : ℕ) (tapes : List QuantumTape)
    (gradient_fn : GradientFn) (n : ℕ) (ans dy : List Val × List Val) :
    (ans.2 ≠ [] →
      (grad_fn ctx device tapes gradient_fn n ans dy).res =
          .ok (normalizeVjps n (ctx.vector_jacobian_products dy.1 ans.2)) ∧
      (grad_fn ctx device tapes gradient_fn n ans dy).devCalls = 0 ∧
      (grad_fn ctx device tapes gradient_fn n ans dy).entered = []) ∧
    (ans.2 = [] → isGradientTransform gradient_fn = true →
      (grad_fn ctx device tapes gradient_fn n ans dy).res =
          ((execute ctx device (ctx.batch_vjp tapes dy.1 gradient_fn).1 gradient_fn
              (n + 1)).res).map
            (fun rs => normalizeVjps n ((ctx.batch_vjp tapes dy.1 gradient_fn).2 rs)) ∧
      (grad_fn ctx device tapes gradient_fn n ans dy).devCalls = 1 ∧
      (grad_fn ctx device tapes gradient_fn n ans dy).entered = [n + 1]) ∧
    (ans.2 = [] → isGradientTransform gradient_fn = false →
      gradient_fn.isBoundMethod = true → gradient_fn.boundTo = device →
      (grad_fn ctx device tapes gradient_fn n ans dy).res =
          (gradient_fn.run (tapes.map unwrapTape)).map
            (fun jacs => normalizeVjps n (ctx.vector_jacobian_products dy.1 jacs)) ∧
      (grad_fn ctx device tapes gradient_fn n ans dy).devCalls = 1 ∧
      (grad_fn ctx device tapes gradient_fn n ans dy).entered = []) ∧
    (ans.2 = [] → isGradientTransform gradient_fn = false →
      (gradient_fn.isBoundMethod && gradient_fn.boundTo == device) = false →
      (grad_fn ctx device tapes gradient_fn n ans dy).res = .error .unknownGradientFn ∧
      (grad_fn ctx device tapes gradient_fn n ans dy).devCalls = 0 ∧
      (grad_fn ctx device tapes gradient_fn n ans dy).entered = []) := by
  refine ⟨fun h1 => ?_, fun h1 h2 => ?_, fun h1 h2 h3 h4 => ?_, fun h1 h2 h3 => ?_⟩
  · simp [grad_fn, h1]
  · simp only [grad_fn, h1, h2, ne_eq, not_true_eq_false, if_false, if_true,
      not_false_eq_true, ite_true, ite_false]
    cases hx : ctx.execute_fn
        ((ctx.batch_vjp tapes dy.1 gradient_fn).1.map unwrapTape) <;>
      simp [execute, _execute, hx, Except.map]
  · simp only [grad_fn, h1, h2, h3, h4, ne_eq, not_true_eq_false, if_false,
      beq_self_eq_true, Bool.true_and, Bool.and_self, ite_true, ite_false,
      not_false_eq_true]
    cases hr : gradient_fn.run (tapes.map unwrapTape) <;>
      simp [hr, Except.map]
  · simp [grad_fn, h1, h2, h3]

/-- Claim C3: the nesting level is positive, starts at 1 on the outermost
execute call (the source's default for _n), and the only recursive
re-entry into execute — the one grad_fn triggers when differentiating
through a gradient-transform gradient_fn — is entered at exactly the
current level plus 1; every level at which grad_fn re-enters execute is
strictly greater than the current one (never decremented) and positive. -/
theorem nesting_level_monotone (ctx : Ctx) (device : ℕ) (tapes : List QuantumTape)
    (gradient_fn : GradientFn) (n : ℕ) (ans dy : List Val × List Val) :
    (execute ctx device tapes gradient_fn 1).entered = [1] ∧
    (ans.2 = [] → isGradientTransform gradient_fn = true →
      (grad_fn ctx device tapes gradient_fn n ans dy).entered = [n + 1]) ∧
    (∀ m ∈ (grad_fn ctx device tapes gradient_fn n ans dy).entered, n < m ∧ 0 < m) := by
  refine ⟨?_, fun h1 h2 => ?_, fun m hm => ?_⟩
  · cases hx : ctx.execute_fn (tapes.map unwrapTape) <;>
      simp [execute, _execute, hx]
  · simp only [grad_fn, h1, h2, ne_eq, not_true_eq_false, if_false, ite_true,
      ite_false, not_false_eq_true]
    cases hx : ctx.execute_fn
        ((ctx.batch_vjp tapes dy.1 gradient_fn).1.map unwrapTape) <;>
      simp [execute, _execute, hx, Except.map]
  · revert hm
    unfold grad_fn
    dsimp only
    split
    · simp
    · split
      · split <;>
          · rename_i hres
            cases hx : ctx.execute_fn
                ((ctx.batch_vjp tapes dy.1 gradient_fn).1.map unwrapTape) <;>
              · simp only [execute, _execute, hx] at hres ⊢
                intro hmem
                simp at hmem
                omega
      · split
        · split <;> simp
        · simp

/-- Claim C4: every successfully returned VJP list is the line-165
normalization of a raw VJP list: each component that is still a
graph-tracking wrapper is converted by to_numpy with max_depth equal to the
current nesting level, components that are not wrappers are returned
unchanged, to_numpy strips exactly min(depth, nesting level) wrapper
levels (so wrapping needed for orders above the current level survives),
and a component wrapped no deeper than the nesting level comes out as a
plain numeric value. -/
theorem vjp_output_normalized (ctx : Ctx) (device : ℕ) (tapes : List QuantumTape)
    (gradient_fn : GradientFn) (n : ℕ) (ans dy : List Val × List Val)
    (out : List Val)
    (h : (grad_fn ctx device tapes gradient_fn n ans dy).res = .ok out) :
    (∃ raw, out = normalizeVjps n raw) ∧
    (∀ v : Val, v.isBox = false → normalizeVjps n [v] = [v]) ∧
    (∀ v : Val, boxDepth (to_numpy v n) = boxDepth v - n) ∧
    (∀ v : Val, boxDepth v ≤ n → to_numpy v n = Val.num (unwrapVal v)) := by
  refine ⟨?_, fun v hv => by simp [normalizeVjps, hv],
    fun v => boxDepth_to_numpy n v, fun v hv => to_numpy_of_depth_le n v hv⟩
  revert h
  unfold grad_fn
  dsimp only
  split
  · intro h
    exact ⟨_, by injection h.symm⟩
  · split
    · split
      · intro h
        cases h
      · rename_i rs hres
        intro h
        exact ⟨_, by injection h.symm⟩
    · split
      · split
        · intro h
          cases h
        · intro h
          exact ⟨_, by injection h.symm⟩
      · intro h
        cases h

/-- Claim C9: target_alignment returns exactly the value of polarity with
normalize set to true, for every dataset, label list, kernel and flag
setting (and every implementation of the imported helpers
square_kernel_matrix and frobenius_inner_product). -/
theorem target_alignment_eq_polarity_normalized {α : Type}
    (square_kernel_matrix : List α → (α → α → ℚ) → Bool → List (List ℚ))
    (frobenius_inner_product : List (List ℚ) → List (List ℚ) → Bool → ℚ)
    (X : List α) (Y : List ℚ) (kernel : α → α → ℚ)
    (assume_normalized_kernel rescale_class_labels : Bool) :
    target_alignment square_kernel_matrix frobenius_inner_product X Y kernel
        assume_normalized_kernel rescale_class_labels =
      polarity square_kernel_matrix frobenius_inner_product X Y kernel
        assume_normalized_kernel rescale_class_labels true := rfl

/-- Claim C5 counterexample: calling execute with an unrecognized
gradient_fn (neither a gradient transform nor a method bound to the
device) does NOT surface the configuration error before any device call:
at this concrete input the forward call succeeds with result [1] after
performing exactly one device call, so the unrecognized-gradient-function
error is not raised at execute time. -/
theorem execute_unknown_gradient_fn_no_early_error :
    isGradientTransform gfnUnknown = false ∧
    (gfnUnknown.isBoundMethod && gfnUnknown.boundTo == deviceW) = false ∧
    (execute ctxW deviceW [tapeW] gfnUnknown 1).res = .ok [Val.num 1] ∧
    (execute ctxW deviceW [tapeW] gfnUnknown 1).devCalls = 1 := by
  refine ⟨by decide, by decide, rfl, rfl⟩

/-- Claim C5 (amended): for every backward-pass VJP request with an empty
stored Jacobian set and a gradient_fn that is neither a gradient transform
nor a method bound to the device, the unrecognized-gradient-function error
is raised immediately and synchronously, before any backward-pass device
call and without re-entering execute, and is never retried. -/
theorem unknown_gradient_fn_error_on_backward (ctx : Ctx) (device : ℕ)
    (tapes : List QuantumTape) (gradient_fn : GradientFn) (n : ℕ)
    (ans dy : List Val × List Val)
    (h1 : ans.2 = []) (h2 : isGradientTransform gradient_fn = false)
    (h3 : (gradient_fn.isBoundMethod && gradient_fn.boundTo == device) = false) :
    (grad_fn ctx device tapes gradient_fn n ans dy).res = .error .unknownGradientFn ∧
    (grad_fn ctx device tapes gradient_fn n ans dy).devCalls = 0 ∧
    (grad_fn ctx device tapes gradient_fn n ans dy).entered = [] := by
  simp [grad_fn, h1, h2, h3]

/-- Claim C5 witness: the amended statement at the concrete unrecognized
gradient function, tape and context. -/
theorem unknown_gradient_fn_error_on_backward_witness :
    (grad_fn ctxW deviceW [tapeW] gfnUnknown 1 ([Val.num 1], []) ([Val.num 1], [])).res
        = .error .unknownGradientFn ∧
    (grad_fn ctxW deviceW [tapeW] gfnUnknown 1 ([Val.num 1], []) ([Val.num 1], [])).devCalls
        = 0 ∧
    (grad_fn ctxW deviceW [tapeW] gfnUnknown 1 ([Val.num 1], []) ([Val.num 1], [])).entered
        = [] :=
  unknown_gradient_fn_error_on_backward ctxW deviceW [tapeW] gfnUnknown 1
    ([Val.num 1], []) ([Val.num 1], []) rfl (by decide) (by decide)

/-- Claim C6 (spec-modelled): when the nesting level the recursive re-entry
would use strictly exceeds the max_diff ceiling, the capped gradient rule
resolver skips recursive gradient-tape execution (no execute re-entry) and
instead computes the current-order VJP non-recursively, by one direct
execute_fn call on the gradient tapes built from the unwrapped tapes; the
result depends on the tapes only through their fully unwrapped numeric
parameters, so every derivative order strictly beyond the ceiling is zero
(the same rendering as the device-method path), and the computed result
differs from the unbounded resolver — which re-enters execute at level
n + 1 on the same input — in a deterministic, reproducible way, both
resolvers being pure functions. -/
theorem max_diff_ceiling_blocks_recursion (ctx : Ctx) (device : ℕ)
    (tapes tapes2 : List QuantumTape) (gradient_fn : GradientFn) (max_diff n : ℕ)
    (ans dy : List Val × List Val)
    (h1 : ans.2 = []) (h2 : isGradientTransform gradient_fn = true)
    (h3 : max_diff < n + 1) :
    (grad_fn_capped ctx device tapes gradient_fn max_diff n ans dy).entered = [] ∧
    (grad_fn_capped ctx device tapes gradient_fn max_diff n ans dy).res =
        (ctx.execute_fn (ctx.batch_vjp (tapes.map unwrapTape) dy.1 gradient_fn).1).map
          (fun rj =>
            normalizeVjps n ((ctx.batch_vjp (tapes.map unwrapTape) dy.1 gradient_fn).2 rj.1)) ∧
    (tapes.map unwrapTape = tapes2.map unwrapTape →
        (grad_fn_capped ctx device tapes gradient_fn max_diff n ans dy).res =
          (grad_fn_capped ctx device tapes2 gradient_fn max_diff n ans dy).res) ∧
    (grad_fn ctx device tapes gradient_fn n ans dy).entered = [n + 1] := by
  have hbr : ∀ ts : List QuantumTape,
      (grad_fn_capped ctx device ts gradient_fn max_diff n ans dy).res =
          (ctx.execute_fn (ctx.batch_vjp (ts.map unwrapTape) dy.1 gradient_fn).1).map
            (fun rj =>
              normalizeVjps n ((ctx.batch_vjp (ts.map unwrapTape) dy.1 gradient_fn).2 rj.1)) ∧
      (grad_fn_capped ctx device ts gradient_fn max_diff n ans dy).entered = [] := by
    intro ts
    simp only [grad_fn_capped, h1, h2, h3, ne_eq, not_true_eq_false, if_false,
      ite_true, ite_false, not_false_eq_true, if_true]
    cases hx : ctx.execute_fn (ctx.batch_vjp (ts.map unwrapTape) dy.1 gradient_fn).1 <;>
      simp [hx, Except.map]
  refine ⟨(hbr tapes).2, (hbr tapes).1, fun heq => ?_, ?_⟩
  · rw [(hbr tapes).1, (hbr tapes2).1, heq]
  · simp only [grad_fn, h1, h2, ne_eq, not_true_eq_false, if_false, ite_true,
      ite_false, not_false_eq_true]
    cases hx : ctx.execute_fn
        ((ctx.batch_vjp tapes dy.1 gradient_fn).1.map unwrapTape) <;>
      simp [execute, _execute, hx, Except.map]

/-- Claim C6 witness: with ceiling max_diff = 1 at nesting level 1, the
capped resolver computes the current-order VJP by a direct execute_fn call
without re-entering execute, agrees on the plain and the graph-tracked
tape (equal unwrapped parameters), while the unbounded resolver re-enters
execute at level 2. -/
theorem max_diff_ceiling_blocks_recursion_witness :
    (grad_fn_capped ctxW deviceW [tapeW] gfnTransform 1 1
        ([Val.num 1], []) ([Val.num 1], [])).entered = [] ∧
    (grad_fn_capped ctxW deviceW [tapeW] gfnTransform 1 1
        ([Val.num 1], []) ([Val.num 1], [])).res =
        (ctxW.execute_fn (ctxW.batch_vjp ([tapeW].map unwrapTape) [Val.num 1] gfnTransform).1).map
          (fun rj =>
            normalizeVjps 1 ((ctxW.batch_vjp ([tapeW].map unwrapTape) [Val.num 1] gfnTransform).2 rj.1)) ∧
    (([tapeW] : List QuantumTape).map unwrapTape = [tapeBoxW].map unwrapTape →
        (grad_fn_capped ctxW deviceW [tapeW] gfnTransform 1 1
            ([Val.num 1], []) ([Val.num 1], [])).res =
          (grad_fn_capped ctxW deviceW [tapeBoxW] gfnTransform 1 1
            ([Val.num 1], []) ([Val.num 1], [])).res) ∧
    (grad_fn ctxW deviceW [tapeW] gfnTransform 1
        ([Val.num 1], []) ([Val.num 1], [])).entered = [1 + 1] :=
  max_diff_ceiling_blocks_recursion ctxW deviceW [tapeW] [tapeBoxW] gfnTransform 1 1
    ([Val.num 1], []) ([Val.num 1], []) rfl (by decide) (by decide)

/-- Claim C7: on the device-bound gradient-method path (empty stored
Jacobian set, gradient_fn not a transform, bound to this device) the
backward rule never re-enters execute, any error it reports is exactly the
one the device gradient call raised (no unpredictable failure), and its
result depends on the tapes only through their fully unwrapped numeric
parameters: two tape batches whose unwrapped parameters agree yield the
same VJPs, so no graph-tracking of the parameters survives into the result
and every derivative through this path beyond order 1 is zero by
construction. -/
theorem device_gradient_single_order (ctx : Ctx) (device : ℕ)
    (tapes tapes2 : List QuantumTape) (gradient_fn : GradientFn) (n : ℕ)
    (ans dy : List Val × List Val)
    (h1 : ans.2 = []) (h2 : isGradientTransform gradient_fn = false)
    (h3 : gradient_fn.isBoundMethod = true) (h4 : gradient_fn.boundTo = device) :
    (grad_fn ctx device tapes gradient_fn n ans dy).entered = [] ∧
    (∀ e, (grad_fn ctx device tapes gradient_fn n ans dy).res = .error e →
        gradient_fn.run (tapes.map unwrapTape) = .error e) ∧
    (tapes.map unwrapTape = tapes2.map unwrapTape →
        (grad_fn ctx device tapes gradient_fn n ans dy).res =
          (grad_fn ctx device tapes2 gradient_fn n ans dy).res) := by
  have hbr : ∀ ts : List QuantumTape,
      (grad_fn ctx device ts gradient_fn n ans dy).res =
          (gradient_fn.run (ts.map unwrapTape)).map
            (fun jacs => normalizeVjps n (ctx.vector_jacobian_products dy.1 jacs)) ∧
      (grad_fn ctx device ts gradient_fn n ans dy).entered = [] := by
    intro ts
    simp only [grad_fn, h1, h2, h3, h4, ne_eq, not_true_eq_false, if_false,
      beq_self_eq_true, Bool.and_self, ite_true, ite_false, not_false_eq_true]
    cases hr : gradient_fn.run (ts.map unwrapTape) <;> simp [hr, Except.map]
  refine ⟨(hbr tapes).2, fun e he => ?_, fun heq => ?_⟩
  · rw [(hbr tapes).1] at he
    cases hr : gradient_fn.run (tapes.map unwrapTape) <;> rw [hr] at he <;>
      simp [Except.map] at he
    rw [he]
  · rw [(hbr tapes).1, (hbr tapes2).1, heq]

/-- Claim C7 witness: the device-bound path at a concrete device gradient
method, on the plain tape and on the graph-tracked tape (same unwrapped
parameters). -/
theorem device_gradient_single_order_witness :
    (grad_fn ctxW deviceW [tapeW] gfnDevice 1 ([Val.num 1], []) ([Val.num 1], [])).entered
        = [] ∧
    (∀ e, (grad_fn ctxW deviceW [tapeW] gfnDevice 1
        ([Val.num 1], []) ([Val.num 1], [])).res = .error e →
        gfnDevice.run ([tapeW].map unwrapTape) = .error e) ∧
    ([tapeW].map unwrapTape = [tapeBoxW].map unwrapTape →
        (grad_fn ctxW deviceW [tapeW] gfnDevice 1
            ([Val.num 1], []) ([Val.num 1], [])).res =
          (grad_fn ctxW deviceW [tapeBoxW] gfnDevice 1
            ([Val.num 1], []) ([Val.num 1], [])).res) :=
  device_gradient_single_order ctxW deviceW [tapeW] [tapeBoxW] gfnDevice 1
    ([Val.num 1], []) ([Val.num 1], []) rfl (by decide) rfl rfl

/-- Claim C8 (spec-modelled): combining forward-mode accumulation with a
gradient-transform gradient_fn fails validation with the descriptive
incompatibility error synchronously, before any device call and before any
execute entry; dispatch never proceeds to execution. -/
theorem forward_mode_transform_fails_fast (ctx : Ctx) (device : ℕ)
    (tapes : List QuantumTape) (gradient_fn : GradientFn)
    (h : isGradientTransform gradient_fn = true) :
    (batch_dispatch ctx device tapes gradient_fn Mode.forward).res =
        .error .gradientTransformForwardMode ∧
    (batch_dispatch ctx device tapes gradient_fn Mode.forward).devCalls = 0 ∧
    (batch_dispatch ctx device tapes gradient_fn Mode.forward).entered = [] := by
  simp [batch_dispatch, h]

/-- Claim C8 witness: the validation failure at the concrete gradient
transform and context. -/
theorem forward_mode_transform_fails_fast_witness :
    (batch_dispatch ctxW deviceW [tapeW] gfnTransform Mode.forward).res =
        .error .gradientTransformForwardMode ∧
    (batch_dispatch ctxW deviceW [tapeW] gfnTransform Mode.forward).devCalls = 0 ∧
    (batch_dispatch ctxW deviceW [tapeW] gfnTransform Mode.forward).entered = [] :=
  forward_mode_transform_fails_fast ctxW deviceW [tapeW] gfnTransform (by decide)

/-- Claim C1 witness: the forward-Jacobian branch at a concrete input with
a non-empty stored Jacobian set: VJPs are computed classically with no
device call and no recursion. -/
theorem grad_fn_decision_order_witness :
    (grad_fn ctxW deviceW [tapeW] gfnUnknown 1
        ([Val.num 1], [Val.num 2]) ([Val.num 1], [])).res =
      .ok (normalizeVjps 1 (ctxW.vector_jacobian_products [Val.num 1] [Val.num 2])) ∧
    (grad_fn ctxW deviceW [tapeW] gfnUnknown 1
        ([Val.num 1], [Val.num 2]) ([Val.num 1], [])).devCalls = 0 ∧
    (grad_fn ctxW deviceW [tapeW] gfnUnknown 1
        ([Val.num 1], [Val.num 2]) ([Val.num 1], [])).entered = [] :=
  (grad_fn_decision_order ctxW deviceW [tapeW] gfnUnknown 1
    ([Val.num 1], [Val.num 2]) ([Val.num 1], [])).1 (by decide)

/-- Claim C3 witness: the outermost execute entry is recorded at level 1,
and the backward rule of a gradient transform at level 1 re-enters execute
at level 2. -/
theorem nesting_level_monotone_witness :
    (execute ctxW deviceW [tapeW] gfnTransform 1).entered = [1] ∧
    (grad_fn ctxW deviceW [tapeW] gfnTransform 1
        ([Val.num 1], []) ([Val.num 1], [])).entered = [1 + 1] :=
  ⟨(nesting_level_monotone ctxW deviceW [tapeW] gfnTransform 1
      ([Val.num 1], []) ([Val.num 1], [])).1,
   (nesting_level_monotone ctxW deviceW [tapeW] gfnTransform 1
      ([Val.num 1], []) ([Val.num 1], [])).2.1 rfl (by decide)⟩

/-- Claim C4 witness: the normalization facts at nesting level 1, with the
successful concrete VJP output [2] of the forward-Jacobian branch. -/
theorem vjp_output_normalized_witness :
    (∃ raw, [Val.num 2] = normalizeVjps 1 raw) ∧
    (∀ v : Val, v.isBox = false → normalizeVjps 1 [v] = [v]) ∧
    (∀ v : Val, boxDepth (to_numpy v 1) = boxDepth v - 1) ∧
    (∀ v : Val, boxDepth v ≤ 1 → to_numpy v 1 = Val.num (unwrapVal v)) :=
  vjp_output_normalized ctxW deviceW [tapeW] gfnUnknown 1
    ([Val.num 1], [Val.num 2]) ([Val.num 1], []) [Val.num 2] rfl

/-- Claim C10: whenever mol_basis_data returns a pair (n_basis, params),
n_basis has one entry per symbol, each equal to the length of that
symbol's atom_basis_data result, and params is the concatenation of the
per-atom parameter lists in symbol order, so the length of params is the
sum of the entries of n_basis. -/
theorem mol_basis_data_structure (STO3G : String → Option AtomBasisData)
    (name : String) (symbols : List String) (n : List ℕ) (params : List BasisParams)
    (h : mol_basis_data STO3G name symbols = some (n, params)) :
    ∃ bs : List (List BasisParams),
      symbols.mapM (atom_basis_data STO3G name) = some bs ∧
      n = bs.map List.length ∧
      params = bs.flatten ∧
      n.length = symbols.length ∧
      params.length = n.sum := by
  induction symbols generalizing n params with
  | nil =>
      simp only [mol_basis_data, molLoop, Option.some_inj] at h
      injection h with hn hp
      subst hn
      subst hp
      exact ⟨[], rfl, rfl, rfl, rfl, rfl⟩
  | cons s rest ih =>
      simp only [mol_basis_data, molLoop, Option.bind_eq_bind, Option.bind_eq_some] at h
      obtain ⟨b, hb, t, ht, hpair⟩ := h
      injection hpair with hpair2
      injection hpair2 with hn hp
      obtain ⟨bs, hbs, hn2, hp2, hlen, hsum⟩ := ih t.1 t.2 ht
      refine ⟨b :: bs, ?_, ?_, ?_, ?_, ?_⟩
      · simp only [List.mapM_cons, hb, hbs, Option.bind_eq_bind, Option.some_bind]
        rfl
      · simp [← hn, hn2]
      · simp [← hp, hp2]
      · simp [← hn, hlen]
      · simp [← hp, ← hn, hsum, hp2, hn2]

/-- Claim C10 witness: the loader at a concrete one-entry table and the
molecule H2. -/
theorem mol_basis_data_structure_witness :
    ∃ bs : List (List BasisParams),
      List.mapM (atom_basis_data sto3gW "sto-3g") ["H", "H"] = some bs ∧
      ([1, 1] : List ℕ) = bs.map List.length ∧
      ([(sOrb, [1], [2]), (sOrb, [1], [2])] : List BasisParams) = bs.flatten ∧
      ([1, 1] : List ℕ).length = (["H", "H"] : List String).length ∧
      ([(sOrb, [1], [2]), (sOrb, [1], [2])] : List BasisParams).length =
        ([1, 1] : List ℕ).sum :=
  mol_basis_data_structure sto3gW "sto-3g" ["H", "H"] [1, 1]
    [(sOrb, [1], [2]), (sOrb, [1], [2])] (by rfl)

end Pennylane
